import Mathlib

/-!
# HoverShell core — shallow embedding and verification

Shallow embedding of the state-bearing frontend code of the HoverShell
repository, together with proofs and refutations of the frozen claims
about it.

Embedded source units:
* `src/unnamed/part_007` — the `Terminal` React component: per-session
  line editor (`input`, `cursorPosition`, `commandHistory`,
  `historyIndex`) and its `handleKeyDown` keyboard dispatcher.
* `src/src/stores/terminalStore.ts` — the zustand terminal store:
  `createTerminal`, `closeTerminal`, `setActiveTerminal`, `sendInput`.
* `src/unnamed/part_005` — the zustand app store: `loadProviders`.
* the `App` component (concatenated after the terminal store source) —
  `handleHotkeyCallback`, restricted to its effect on `isVisible`.

Modelling conventions:
* JS strings are `List Char` where character-level slicing matters
  (the editor buffer), `String` elsewhere.
* The JS sentinel `historyIndex = -1` ("not browsing") is `Option Nat`
  with `none` for `-1`.
* JS `x || y` on strings (falsy empty string) and `x?.f || null` are
  modelled explicitly (`jsOrDefault`, `jsIdOrNull`).
* Effects that leave the frontend process (`invoke(...)` IPC calls) are
  transport to an external collaborator and carry no frontend state;
  only the `set(...)` state updates surrounding them are modelled.
* Non-deterministic environment inputs (`Date.now()` used for fresh ids,
  the provider list fetched over IPC) become explicit parameters.
-/

namespace HoverShell

/-! ## JS semantics helpers -/

/-- JS `a || d` for an optional string argument `a`: the default `d` is
used when `a` is absent (`undefined`) or the empty string (falsy). -/
def jsOrDefault : Option String → String → String
  | none, d => d
  | some s, d => if s = "" then d else s

/-- JS `t?.id || null`: `null` when there is no object, and also when the
`id` field is the (falsy) empty string. -/
def jsIdOrNull (id? : Option String) : Option String :=
  match id? with
  | none => none
  | some i => if i = "" then none else some i

/-- JS `String.prototype.trim` over the common whitespace characters
(space, tab, carriage return, newline), on the `List Char` view of a
string: strip leading and trailing whitespace. -/
def jsTrim (l : List Char) : List Char :=
  ((l.dropWhile Char.isWhitespace).reverse.dropWhile Char.isWhitespace).reverse

/-! ## Line editor (`src/unnamed/part_007`, `Terminal` component)

The editor state is the four `useState` cells of the `Terminal`
component. `handleKeyDown` is its only mutator; `onInput` is the line
forwarded for execution, returned here as the second component. -/

structure EditorState where
  input : List Char
  cursorPosition : Nat
  commandHistory : List (List Char)
  /-- In the source `historyIndex` is `-1` when not browsing; `none`
  here. -/
  historyIndex : Option Nat
  deriving DecidableEq, Repr

/-- The keys `handleKeyDown` dispatches on. `Key.char c` is the default
case: a printable key of length 1 with no meta/ctrl/alt modifier.
`Key.tab` (and the `c`/`v` clipboard chords, all TODO no-ops in the
source) are represented by `Key.tab`. -/
inductive Key where
  | enter
  | arrowUp
  | arrowDown
  | arrowLeft
  | arrowRight
  | home
  | endKey
  | backspace
  | delete
  | tab
  | char (c : Char)
  deriving DecidableEq, Repr

/-- Function `handleKeyDown` from the `Terminal` component: one keyboard event.
Returns the successor state and `some line` exactly when `onInput(line)`
was called (the `Enter` case with a non-blank buffer). -/
def handleKeyDown (st : EditorState) (k : Key) : EditorState × Option (List Char) :=
  match k with
  | Key.enter =>
      -- if (input.trim()) { onInput(input); setCommandHistory([...prev, input]);
      --   setHistoryIndex(-1); setInput(''); setCursorPosition(0); }
      if jsTrim st.input = [] then (st, none)
      else
        ({ input := []
           cursorPosition := 0
           commandHistory := st.commandHistory ++ [st.input]
           historyIndex := none }, some st.input)
  | Key.arrowUp =>
      -- if (commandHistory.length > 0) { newIndex = historyIndex === -1
      --   ? commandHistory.length - 1 : Math.max(0, historyIndex - 1); ... }
      if st.commandHistory.length > 0 then
        let newIndex : Nat :=
          match st.historyIndex with
          | none => st.commandHistory.length - 1
          | some i => i - 1   -- Math.max(0, i - 1) is Nat subtraction
        let entry := st.commandHistory.getD newIndex []
        ({ st with historyIndex := some newIndex
                   input := entry
                   cursorPosition := entry.length }, none)
      else (st, none)
  | Key.arrowDown =>
      -- if (historyIndex !== -1) { newIndex = historyIndex + 1;
      --   if (newIndex >= commandHistory.length) { exit browsing, input = '' }
      --   else { recall entry newIndex } }
      match st.historyIndex with
      | none => (st, none)
      | some i =>
          let newIndex := i + 1
          if newIndex ≥ st.commandHistory.length then
            ({ st with historyIndex := none
                       input := []
                       cursorPosition := 0 }, none)
          else
            let entry := st.commandHistory.getD newIndex []
            ({ st with historyIndex := some newIndex
                       input := entry
                       cursorPosition := entry.length }, none)
  | Key.arrowLeft =>
      -- setCursorPosition(prev => Math.max(0, prev - 1))
      ({ st with cursorPosition := st.cursorPosition - 1 }, none)
  | Key.arrowRight =>
      -- setCursorPosition(prev => Math.min(input.length, prev + 1))
      ({ st with cursorPosition := min st.input.length (st.cursorPosition + 1) }, none)
  | Key.home => ({ st with cursorPosition := 0 }, none)
  | Key.endKey => ({ st with cursorPosition := st.input.length }, none)
  | Key.backspace =>
      -- if (cursorPosition > 0) { input.slice(0, p - 1) + input.slice(p); p - 1 }
      if st.cursorPosition > 0 then
        ({ st with input := st.input.take (st.cursorPosition - 1)
                            ++ st.input.drop st.cursorPosition
                   cursorPosition := st.cursorPosition - 1 }, none)
      else (st, none)
  | Key.delete =>
      -- if (cursorPosition < input.length) { input.slice(0, p) + input.slice(p + 1) }
      if st.cursorPosition < st.input.length then
        ({ st with input := st.input.take st.cursorPosition
                            ++ st.input.drop (st.cursorPosition + 1) }, none)
      else (st, none)
  | Key.tab => (st, none)
  | Key.char c =>
      -- input.slice(0, p) + e.key + input.slice(p); p + 1
      ({ st with input := st.input.take st.cursorPosition
                          ++ [c] ++ st.input.drop st.cursorPosition
                 cursorPosition := st.cursorPosition + 1 }, none)

/-! ## Session registry (`src/src/stores/terminalStore.ts`)

The zustand store state (`terminals`, `activeTerminalId`, `isLoading`,
`error`) and its synchronous `set(...)` updates. The `invoke(...)` IPC
calls are transport to the external backend collaborator and do not
touch this state. -/

structure TerminalSession where
  id : String
  title : String
  working_directory : String
  is_active : Bool
  output : String
  deriving DecidableEq, Repr

structure TerminalState where
  terminals : List TerminalSession
  activeTerminalId : Option String
  isLoading : Bool
  error : Option String
  deriving DecidableEq, Repr

/-- Store action `createTerminal(title?, workingDirectory?)`. The source id is
`` `terminal_${Date.now()}` ``; `Date.now()` is environment input, so the
allocated id is the explicit parameter `newId`. The new session is built
with `is_active: false` and `output: ''`, appended, and
`activeTerminalId` is set to its id. -/
def createTerminal (s : TerminalState) (newId : String)
    (title workingDirectory : Option String) : TerminalState :=
  let newTerminal : TerminalSession :=
    { id := newId
      title := jsOrDefault title ("Terminal " ++ toString (s.terminals.length + 1))
      working_directory := jsOrDefault workingDirectory "/"
      is_active := false
      output := "" }
  { s with terminals := s.terminals ++ [newTerminal]
           activeTerminalId := some newId
           isLoading := false
           error := none }

/-- Store action `closeTerminal(id)`: drop every session whose id is `id`; when the
closed id was the active one, `activeTerminalId` becomes
`terminals[0]?.id || null` over the remaining list. -/
def closeTerminal (s : TerminalState) (id : String) : TerminalState :=
  let terminals := s.terminals.filter (fun t => t.id ≠ id)
  let activeTerminalId :=
    if s.activeTerminalId = some id then
      jsIdOrNull ((terminals.head?).map (fun t => t.id))
    else s.activeTerminalId
  { terminals := terminals
    activeTerminalId := activeTerminalId
    isLoading := false
    error := none }

/-- Store action `setActiveTerminal(id)`: every session's `is_active` becomes
`t.id === id`, and `activeTerminalId := id`. -/
def setActiveTerminal (s : TerminalState) (id : String) : TerminalState :=
  { s with terminals := s.terminals.map (fun t => { t with is_active := t.id = id })
           activeTerminalId := some id
           isLoading := false
           error := none }

/-- Store action `sendInput(terminalId, input)`: after the IPC `invoke`, appends
`` `$ ${input}\n` `` to the matching session's output buffer. No
truncation or eviction of any kind is performed. -/
def sendInput (s : TerminalState) (terminalId input : String) : TerminalState :=
  { s with terminals := s.terminals.map (fun t =>
             if t.id = terminalId then
               { t with output := t.output ++ "$ " ++ input ++ "\n" }
             else t)
           isLoading := false
           error := none }

/-! ## App store (`src/unnamed/part_005`) -/

structure Provider where
  id : String
  name : String
  provider_type : String
  base_url : Option String
  model : Option String
  api_key : Option String
  /-- the `default` flag (`is_default` in the specification). -/
  default : Bool
  enabled : Bool
  /-- Field `config: Record<string, any>`, an opaque key→value map. -/
  config : List (String × String)
  deriving DecidableEq, Repr

/-- The app store state, restricted to the fields `loadProviders`
reads or writes (`systemInfo`/`workspaceInfo` are untouched by it). -/
structure AppState where
  providers : List Provider
  defaultProvider : Option String
  isLoading : Bool
  error : Option String
  deriving DecidableEq, Repr

/-- Store action `loadProviders()`: stores the `fetched` list exactly as received
from the `get_providers` IPC call and sets `defaultProvider` to
`providers.find(p => p.default)?.id || null`. No validation of any kind
is performed on the list. -/
def loadProviders (s : AppState) (fetched : List Provider) : AppState :=
  { s with providers := fetched
           defaultProvider := jsIdOrNull ((fetched.find? (fun p => p.default)).map (fun p => p.id))
           isLoading := false
           error := none }

/-! ## Hotkey callback visibility effect (`App` component)

`handleHotkeyCallback(callback)` switches on the callback name.
Restricted here to its effect on the `isVisible` boolean:
`toggle_window` flips it, `quick_hide` forces it `false`; every other
case (`paste_run`, `new_tab`, `close_tab`, `next_tab`, `prev_tab`,
unknown) acts only on the terminal store or logs, leaving `isVisible`
unchanged. -/
def handleHotkeyCallback (isVisible : Bool) (callback : String) : Bool :=
  if callback = "toggle_window" then !isVisible
  else if callback = "quick_hide" then false
  else isVisible

/-! ## Registry operation sequences (for the single-active invariant) -/

/-- One registry mutation, as invoked from the UI: the three operations
the invariant claim ranges over. -/
inductive RegistryOp where
  | create (newId : String) (title workingDirectory : Option String)
  | close (id : String)
  | setActive (id : String)
  deriving DecidableEq, Repr

def applyOp (s : TerminalState) : RegistryOp → TerminalState
  | RegistryOp.create newId title wd => createTerminal s newId title wd
  | RegistryOp.close id => closeTerminal s id
  | RegistryOp.setActive id => setActiveTerminal s id

def applyOps (s : TerminalState) (ops : List RegistryOp) : TerminalState :=
  ops.foldl applyOp s

/-- Number of sessions with `is_active = true`. -/
def activeCount (s : TerminalState) : Nat :=
  (s.terminals.filter (fun t => t.is_active)).length

/-- The session ids are pairwise distinct. -/
def nodupIds (s : TerminalState) : Prop :=
  (s.terminals.map (fun t => t.id)).Nodup

instance (s : TerminalState) : Decidable (nodupIds s) := by
  unfold nodupIds; infer_instance

/-- Every `create` in the sequence allocates an id not already present
in the registry state it executes in (what `Date.now()`-based ids are
meant to provide). -/
def freshCreates : TerminalState → List RegistryOp → Bool
  | _, [] => true
  | s, RegistryOp.create newId title wd :: rest =>
      !(decide (newId ∈ s.terminals.map (fun t => t.id)))
        && freshCreates (applyOp s (RegistryOp.create newId title wd)) rest
  | s, RegistryOp.close id :: rest => freshCreates (applyOp s (RegistryOp.close id)) rest
  | s, RegistryOp.setActive id :: rest => freshCreates (applyOp s (RegistryOp.setActive id)) rest

/-- Output buffer of the session found by id (`find?`: first match). -/
def outputOf (s : TerminalState) (id : String) : Option String :=
  (s.terminals.find? (fun t => t.id = id)).map (fun t => t.output)

/-- Feed a list of input lines to one session, in order. -/
def feedAll (s : TerminalState) (terminalId : String) (inputs : List String) : TerminalState :=
  inputs.foldl (fun s' l => sendInput s' terminalId l) s

/-- The text `sendInput` appends for each line of `inputs`. -/
def appendedLines : List String → String
  | [] => ""
  | l :: ls => "$ " ++ l ++ "\n" ++ appendedLines ls

end HoverShell



namespace HoverShell

/-! ## Line editor: helper lemmas -/

/-- A buffer all of whose characters are whitespace trims to nothing. -/
lemma jsTrim_eq_nil_of_all_whitespace (l : List Char)
    (h : ∀ c ∈ l, c.isWhitespace) : jsTrim l = [] := by
  unfold jsTrim
  have h1 : l.dropWhile Char.isWhitespace = [] :=
    List.dropWhile_eq_nil_iff.mpr h
  simp [h1]

/-! ## Line editor: claim theorems -/

/-- C10: pressing Enter with a buffer consisting only of whitespace
characters (including the empty buffer) is a complete no-op: no line is
forwarded (`onInput` is not called), and the buffer, cursor, history and
history index are all unchanged. -/
theorem whitespace_only_enter_noop (st : EditorState)
    (h : ∀ c ∈ st.input, c.isWhitespace) :
    handleKeyDown st Key.enter = (st, none) := by
  simp [handleKeyDown, jsTrim_eq_nil_of_all_whitespace st.input h]

/-- Witness for `whitespace_only_enter_noop` at the concrete state with
buffer `" \t"`, cursor 1 and one history entry. -/
theorem whitespace_only_enter_noop_witness :
    handleKeyDown ⟨[' ', '\t'], 1, [['l', 's']], none⟩ Key.enter
      = (⟨[' ', '\t'], 1, [['l', 's']], none⟩, none) :=
  whitespace_only_enter_noop ⟨[' ', '\t'], 1, [['l', 's']], none⟩ (by decide)

/-- C6 (amended): when the buffer trims to something non-empty, Enter
forwards the buffer line, appends it to history unconditionally — even
when it is identical to the immediately preceding history entry — clears
the buffer, resets the cursor to 0 and exits history browsing. (The
duplicate-skip described by the claim does not exist in the code; the
empty-buffer case is a complete no-op rather than a clear, see C10.) -/
theorem submit_appends_clears_resets (st : EditorState)
    (h : jsTrim st.input ≠ []) :
    handleKeyDown st Key.enter =
      ({ input := []
         cursorPosition := 0
         commandHistory := st.commandHistory ++ [st.input]
         historyIndex := none }, some st.input) := by
  simp [handleKeyDown, h]

/-- Witness for `submit_appends_clears_resets`: submitting `"ls"` on top
of history `["ls"]` duplicates the entry. -/
theorem submit_appends_clears_resets_witness :
    handleKeyDown ⟨['l', 's'], 2, [['l', 's']], none⟩ Key.enter
      = (⟨[], 0, [['l', 's'], ['l', 's']], none⟩, some ['l', 's']) :=
  submit_appends_clears_resets ⟨['l', 's'], 2, [['l', 's']], none⟩ (by decide)

/-- C6 counterexample: with buffer `"ls"` and history `["ls"]`, Enter
appends a second `"ls"` — the claimed skip of a line identical to the
immediately preceding history entry does not happen. -/
theorem submit_duplicate_append_cex :
    (handleKeyDown ⟨['l', 's'], 2, [['l', 's']], none⟩ Key.enter).1.commandHistory
        = [['l', 's'], ['l', 's']] ∧
    (handleKeyDown ⟨['l', 's'], 2, [['l', 's']], none⟩ Key.enter).1.commandHistory
        ≠ [['l', 's']] := by
  decide

/-- C3 (amended): from a non-browsing state with non-empty history,
ArrowUp (enter browsing at the newest entry) followed by ArrowDown
(walk past the newest entry) exits browsing and leaves an EMPTY buffer
with cursor 0; the unsent buffer content is not snapshotted and is
restored only in the case where it was already empty. History itself is
unchanged. -/
theorem history_walk_past_newest_clears_buffer (st : EditorState)
    (hb : st.historyIndex = none) (hh : st.commandHistory ≠ []) :
    ((handleKeyDown (handleKeyDown st Key.arrowUp).1 Key.arrowDown).1.input = []) ∧
    ((handleKeyDown (handleKeyDown st Key.arrowUp).1 Key.arrowDown).1.cursorPosition = 0) ∧
    ((handleKeyDown (handleKeyDown st Key.arrowUp).1 Key.arrowDown).1.historyIndex = none) ∧
    ((handleKeyDown (handleKeyDown st Key.arrowUp).1 Key.arrowDown).1.commandHistory
        = st.commandHistory) := by
  have hlen : 0 < st.commandHistory.length := List.length_pos.mpr hh
  simp only [handleKeyDown, hb, hlen, if_pos]
  have hge : st.commandHistory.length - 1 + 1 ≥ st.commandHistory.length := by omega
  simp [hge]

/-- Witness for `history_walk_past_newest_clears_buffer` at buffer
`"x"`, history `["ls"]`. -/
theorem history_walk_past_newest_clears_buffer_witness :
    ((handleKeyDown (handleKeyDown ⟨['x'], 1, [['l', 's']], none⟩ Key.arrowUp).1
        Key.arrowDown).1.input = []) ∧
    ((handleKeyDown (handleKeyDown ⟨['x'], 1, [['l', 's']], none⟩ Key.arrowUp).1
        Key.arrowDown).1.cursorPosition = 0) ∧
    ((handleKeyDown (handleKeyDown ⟨['x'], 1, [['l', 's']], none⟩ Key.arrowUp).1
        Key.arrowDown).1.historyIndex = none) ∧
    ((handleKeyDown (handleKeyDown ⟨['x'], 1, [['l', 's']], none⟩ Key.arrowUp).1
        Key.arrowDown).1.commandHistory = [['l', 's']]) :=
  history_walk_past_newest_clears_buffer ⟨['x'], 1, [['l', 's']], none⟩ rfl (by decide)

/-- C3 counterexample: with unsent buffer `"x"` and history `["ls"]`,
ArrowUp then ArrowDown leaves the buffer empty — it does NOT restore the
pre-browse content `"x"`. -/
theorem history_roundtrip_cex :
    (handleKeyDown (handleKeyDown ⟨['x'], 1, [['l', 's']], none⟩ Key.arrowUp).1
        Key.arrowDown).1.input = [] ∧
    (handleKeyDown (handleKeyDown ⟨['x'], 1, [['l', 's']], none⟩ Key.arrowUp).1
        Key.arrowDown).1.input ≠ ['x'] := by
  decide

/-- C7: every key handled by `handleKeyDown` — character insertion,
backward and forward deletion, all cursor movements, Enter and the
history keys — preserves the invariant `cursor ≤ len(buffer)` (the lower
bound holds by the `Nat` representation). -/
theorem editor_cursor_invariant (st : EditorState) (k : Key)
    (h : st.cursorPosition ≤ st.input.length) :
    (handleKeyDown st k).1.cursorPosition ≤ (handleKeyDown st k).1.input.length := by
  cases k with
  | enter =>
      by_cases hc : jsTrim st.input = [] <;> simp [handleKeyDown, hc, h]
  | arrowUp =>
      by_cases hl : st.commandHistory.length > 0 <;>
        simp [handleKeyDown, hl, h]
  | arrowDown =>
      cases hi : st.historyIndex with
      | none => simpa [handleKeyDown, hi] using h
      | some i =>
          by_cases hge : i + 1 ≥ st.commandHistory.length <;>
            simp [handleKeyDown, hi, hge]
  | arrowLeft => simp [handleKeyDown]; omega
  | arrowRight => simp [handleKeyDown]
  | home => simp [handleKeyDown]
  | endKey => simp [handleKeyDown]
  | backspace =>
      by_cases hp : st.cursorPosition > 0
      · simp [handleKeyDown, hp]; omega
      · simp [handleKeyDown, hp, h]
  | delete =>
      by_cases hp : st.cursorPosition < st.input.length
      · simp [handleKeyDown, hp]; omega
      · simp [handleKeyDown, hp, h]
  | tab => simpa [handleKeyDown] using h
  | char c =>
      simp [handleKeyDown]; omega

/-- Witness for `editor_cursor_invariant`: inserting `'x'` into buffer
`"ab"` at cursor 1. -/
theorem editor_cursor_invariant_witness :
    (handleKeyDown ⟨['a', 'b'], 1, [], none⟩ (Key.char 'x')).1.cursorPosition
      ≤ (handleKeyDown ⟨['a', 'b'], 1, [], none⟩ (Key.char 'x')).1.input.length :=
  editor_cursor_invariant ⟨['a', 'b'], 1, [], none⟩ (Key.char 'x') (by decide)

/-! ## Session registry: helper lemmas -/

/-- Action `createTerminal` does not change the number of active sessions: the
appended session carries `is_active = false`. -/
lemma activeCount_create (s : TerminalState) (newId : String)
    (title wd : Option String) :
    activeCount (createTerminal s newId title wd) = activeCount s := by
  simp [activeCount, createTerminal, List.filter_append]

/-- Action `createTerminal` with an id not already in the registry preserves
distinctness of session ids. -/
lemma nodupIds_create (s : TerminalState) (newId : String)
    (title wd : Option String) (h : nodupIds s)
    (hf : newId ∉ s.terminals.map (fun t => t.id)) :
    nodupIds (createTerminal s newId title wd) := by
  simp only [nodupIds, createTerminal, List.map_append, List.map_cons, List.map_nil] at *
  simp [List.nodup_append, h, hf]

/-- Action `closeTerminal` removes sessions, so the active count cannot grow. -/
lemma activeCount_close (s : TerminalState) (id : String) :
    activeCount (closeTerminal s id) ≤ activeCount s :=
  List.Sublist.length_le ((List.filter_sublist _).filter _)

/-- Action `closeTerminal` preserves distinctness of session ids. -/
lemma nodupIds_close (s : TerminalState) (id : String) (h : nodupIds s) :
    nodupIds (closeTerminal s id) :=
  h.sublist ((List.filter_sublist _).map _)

/-- After `setActiveTerminal s id`, the sessions flagged active are
exactly those whose id is `id`. -/
lemma length_filter_active_setActive (l : List TerminalSession) (id : String) :
    ((l.map (fun t => { t with is_active := t.id = id })).filter
        (fun t => t.is_active)).length
      = (l.filter (fun t => t.id = id)).length := by
  induction l with
  | nil => rfl
  | cons t l ih =>
      by_cases h : t.id = id <;>
        simp [List.filter_cons, h, ih]

/-- In a list of sessions with pairwise-distinct ids, at most one
session has any given id. -/
lemma length_filter_id_le_one (l : List TerminalSession) (id : String)
    (h : (l.map (fun t => t.id)).Nodup) :
    (l.filter (fun t => t.id = id)).length ≤ 1 := by
  induction l with
  | nil => simp
  | cons t l ih =>
      simp only [List.map_cons, List.nodup_cons] at h
      by_cases hid : t.id = id
      · have hnil : l.filter (fun t => t.id = id) = [] := by
          rw [List.filter_eq_nil_iff]
          intro x hx hxid
          simp only [decide_eq_true_eq] at hxid
          exact h.1 (hid ▸ hxid ▸ List.mem_map_of_mem (fun t => t.id) hx)
        simp [List.filter_cons, hid, hnil]
      · simp only [List.filter_cons, decide_eq_true_eq, hid, if_false]
        exact ih h.2

/-- With distinct ids, `setActiveTerminal` leaves at most one active
session. -/
lemma activeCount_setActive (s : TerminalState) (id : String)
    (h : nodupIds s) : activeCount (setActiveTerminal s id) ≤ 1 := by
  unfold activeCount setActiveTerminal
  simp only [length_filter_active_setActive]
  exact length_filter_id_le_one s.terminals id h

/-- Action `setActiveTerminal` does not touch session ids. -/
lemma nodupIds_setActive (s : TerminalState) (id : String)
    (h : nodupIds s) : nodupIds (setActiveTerminal s id) := by
  simpa [nodupIds, setActiveTerminal, List.map_map, Function.comp] using h

/-- The combined invariant — distinct ids and at most one active
session — is preserved by every sequence of registry operations whose
`create` steps allocate fresh ids. -/
lemma inv_applyOps (ops : List RegistryOp) : ∀ s : TerminalState,
    nodupIds s → activeCount s ≤ 1 → freshCreates s ops = true →
    nodupIds (applyOps s ops) ∧ activeCount (applyOps s ops) ≤ 1 := by
  induction ops with
  | nil => exact fun s h1 h2 _ => ⟨h1, h2⟩
  | cons op rest ih =>
      intro s h1 h2 hf
      show nodupIds (applyOps (applyOp s op) rest)
        ∧ activeCount (applyOps (applyOp s op) rest) ≤ 1
      cases op with
      | create newId title wd =>
          simp only [freshCreates, Bool.and_eq_true, Bool.not_eq_true',
            decide_eq_false_iff_not] at hf
          exact ih _ (nodupIds_create s newId title wd h1 hf.1)
            (by rw [applyOp, activeCount_create]; exact h2) hf.2
      | close id =>
          simp only [freshCreates] at hf
          exact ih _ (nodupIds_close s id h1)
            (le_trans (activeCount_close s id) h2) hf
      | setActive id =>
          simp only [freshCreates] at hf
          exact ih _ (nodupIds_setActive s id h1) (activeCount_setActive s id h1) hf

/-! ## Session registry: claim theorems -/

/-- C1 (amended): for every sequence of `createTerminal`,
`closeTerminal` and `setActiveTerminal` operations applied to a registry
state with pairwise-distinct session ids and at most one session with
`is_active = true`, where each `createTerminal` allocates an id not
already present when it executes, the resulting state again has at most
one session with `is_active = true`. (Without the distinct-ids
hypothesis the claim is false: `setActiveTerminal` activates every
session whose id matches.) -/
theorem registry_single_active_invariant (s : TerminalState)
    (ops : List RegistryOp) (h1 : nodupIds s) (h2 : activeCount s ≤ 1)
    (hf : freshCreates s ops = true) :
    activeCount (applyOps s ops) ≤ 1 :=
  (inv_applyOps ops s h1 h2 hf).2

/-- Witness for `registry_single_active_invariant`: create two sessions,
activate one, close it. -/
theorem registry_single_active_invariant_witness :
    activeCount (applyOps ⟨[], none, false, none⟩
      [RegistryOp.create "a" none none, RegistryOp.create "b" none none,
       RegistryOp.setActive "a", RegistryOp.close "a"]) ≤ 1 :=
  registry_single_active_invariant ⟨[], none, false, none⟩
    [RegistryOp.create "a" none none, RegistryOp.create "b" none none,
     RegistryOp.setActive "a", RegistryOp.close "a"]
    (by decide) (by decide) (by decide)

/-- C1 counterexample: a registry with two sessions sharing id `"a"`
(none active, so "at most one active" holds) on which
`setActiveTerminal "a"` produces TWO active sessions. -/
theorem registry_single_active_dup_ids_cex :
    activeCount ⟨[⟨"a", "t1", "/", false, ""⟩, ⟨"a", "t2", "/", false, ""⟩],
        none, false, none⟩ ≤ 1 ∧
    ¬ activeCount (applyOps
        ⟨[⟨"a", "t1", "/", false, ""⟩, ⟨"a", "t2", "/", false, ""⟩],
          none, false, none⟩
        [RegistryOp.setActive "a"]) ≤ 1 := by
  decide

/-- C2 (amended): closing the active session `x` removes every session
with id `x` and leaves the surviving sessions untouched; the
registry-level active id then falls to the FIRST session of the
remaining registry order (`terminals[0]`), not to the predecessor of
`x`, and to no session when none remains (or, a JS falsy artifact, when
the first survivor's id is the empty string). -/
theorem closeTerminal_activation_first_rule (s : TerminalState) (x : String)
    (hx : s.activeTerminalId = some x) :
    ((closeTerminal s x).terminals = s.terminals.filter (fun t => t.id ≠ x)) ∧
    (s.terminals.filter (fun t => t.id ≠ x) = [] →
      (closeTerminal s x).activeTerminalId = none) ∧
    (∀ t rest, s.terminals.filter (fun t => t.id ≠ x) = t :: rest → t.id ≠ "" →
      (closeTerminal s x).activeTerminalId = some t.id) := by
  have hcond : (s.activeTerminalId = some x) = True := by simp [hx]
  have key : (closeTerminal s x).activeTerminalId
      = jsIdOrNull (((s.terminals.filter (fun t => t.id ≠ x)).head?).map
          (fun t => t.id)) := by
    simp only [closeTerminal, hcond, if_true]
  refine ⟨rfl, ?_, ?_⟩
  · intro hnil
    rw [key, hnil]
    rfl
  · intro t rest hcons hne
    rw [key, hcons]
    simp [jsIdOrNull, hne]

/-- Witness for `closeTerminal_activation_first_rule`: closing the
active `"c"` in registry `[a, b, c]` activates `"a"`. -/
theorem closeTerminal_activation_first_rule_witness :
    (closeTerminal ⟨[⟨"a", "t1", "/", false, ""⟩, ⟨"b", "t2", "/", false, ""⟩,
        ⟨"c", "t3", "/", true, ""⟩], some "c", false, none⟩ "c").activeTerminalId
      = some "a" :=
  (closeTerminal_activation_first_rule
      ⟨[⟨"a", "t1", "/", false, ""⟩, ⟨"b", "t2", "/", false, ""⟩,
        ⟨"c", "t3", "/", true, ""⟩], some "c", false, none⟩ "c" rfl).2.2
    ⟨"a", "t1", "/", false, ""⟩ [⟨"b", "t2", "/", false, ""⟩] (by decide) (by decide)

/-- C2 counterexample: in registry order `[a, b, c]` with `c` active,
closing `c` hands activation to `a` (the first session), not to the
immediately preceding session `b` as the claim states. -/
theorem closeTerminal_predecessor_cex :
    (closeTerminal ⟨[⟨"a", "t1", "/", false, ""⟩, ⟨"b", "t2", "/", false, ""⟩,
        ⟨"c", "t3", "/", true, ""⟩], some "c", false, none⟩ "c").activeTerminalId
      = some "a" ∧
    (closeTerminal ⟨[⟨"a", "t1", "/", false, ""⟩, ⟨"b", "t2", "/", false, ""⟩,
        ⟨"c", "t3", "/", true, ""⟩], some "c", false, none⟩ "c").activeTerminalId
      ≠ some "b" := by
  decide

/-- C5 (amended): `createTerminal` appends a freshly allocated session
with empty output buffer and `is_active = FALSE` to the registry,
leaves every pre-existing session (including its `is_active` flag)
unchanged, and points the registry-level `activeTerminalId` at the new
session; no per-session `is_active` flag is set or cleared. (The
editor state is not part of the session record: it lives in the
`Terminal` component, freshly initialized empty when the session is
first rendered.) -/
theorem createTerminal_appends_inactive_session (s : TerminalState)
    (newId : String) (title wd : Option String) :
    ((createTerminal s newId title wd).terminals.length = s.terminals.length + 1) ∧
    ((createTerminal s newId title wd).terminals.take s.terminals.length
        = s.terminals) ∧
    ((createTerminal s newId title wd).terminals.getLast?.map
        (fun t => (t.id, t.is_active, t.output)) = some (newId, false, "")) ∧
    ((createTerminal s newId title wd).activeTerminalId = some newId) := by
  refine ⟨?_, ?_, ?_, rfl⟩
  · simp [createTerminal]
  · simp [createTerminal, List.take_left]
  · simp [createTerminal]

/-- C5 counterexample: with a single active session `a`, `createTerminal`
allocating `b` yields `is_active` flags `[("a", true), ("b", false)]` —
the new session is NOT marked active and the previous one is NOT
deactivated, contrary to the claim's flag transfer. -/
theorem createTerminal_marks_active_cex :
    ((createTerminal ⟨[⟨"a", "t1", "/", true, ""⟩], some "a", false, none⟩
        "b" none none).terminals.map (fun t => (t.id, t.is_active)))
      = [("a", true), ("b", false)] ∧
    ((createTerminal ⟨[⟨"a", "t1", "/", true, ""⟩], some "a", false, none⟩
        "b" none none).terminals.map (fun t => (t.id, t.is_active)))
      ≠ [("a", false), ("b", true)] := by
  decide

/-! ## Output feeding: helper lemmas -/

/-- Appending output to the session found by id: one `sendInput` step. -/
lemma find?_sendInput (l : List TerminalSession) (tid inp : String) :
    (l.map (fun t => if t.id = tid then
        { t with output := t.output ++ "$ " ++ inp ++ "\n" } else t)).find?
      (fun t => t.id = tid)
    = (l.find? (fun t => t.id = tid)).map (fun t =>
        { t with output := t.output ++ "$ " ++ inp ++ "\n" }) := by
  induction l with
  | nil => rfl
  | cons t l ih =>
      by_cases h : t.id = tid
      · simp [List.find?_cons, h]
      · simp [List.find?_cons, h, ih]

/-- One `sendInput` appends exactly `"$ " ++ inp ++ "\n"` to the target
session's output buffer. -/
lemma outputOf_sendInput (s : TerminalState) (tid inp out : String)
    (h : outputOf s tid = some out) :
    outputOf (sendInput s tid inp) tid = some (out ++ "$ " ++ inp ++ "\n") := by
  unfold outputOf at *
  rw [show (sendInput s tid inp).terminals
      = s.terminals.map (fun t => if t.id = tid then
          { t with output := t.output ++ "$ " ++ inp ++ "\n" } else t) from rfl]
  rw [find?_sendInput]
  rcases Option.map_eq_some'.mp h with ⟨t, hfind, hout⟩
  rw [hfind]
  simp [hout]

/-! ## Output feeding: claim theorems -/

/-- C4 (amended): feeding any number of input lines to a session
appends `"$ line\n"` for each, RETAINING the entire previous buffer
content — the output buffer is unbounded and no eviction of oldest lines
ever happens (the code applies no `scrollback_limit`). -/
theorem feedAll_retains_all_lines (s : TerminalState) (tid : String)
    (inputs : List String) (out : String) (h : outputOf s tid = some out) :
    outputOf (feedAll s tid inputs) tid = some (out ++ appendedLines inputs) := by
  induction inputs generalizing s out with
  | nil =>
      rw [show feedAll s tid [] = s from rfl, h]
      simp [appendedLines]
  | cons l ls ih =>
      rw [show feedAll s tid (l :: ls) = feedAll (sendInput s tid l) tid ls from rfl]
      rw [ih (sendInput s tid l) (out ++ "$ " ++ l ++ "\n")
        (outputOf_sendInput s tid l out h)]
      simp [appendedLines, String.append_assoc]

/-- Witness for `feedAll_retains_all_lines`: three lines fed to an
initially empty buffer are all retained. -/
theorem feedAll_retains_all_lines_witness :
    outputOf (feedAll ⟨[⟨"t", "Terminal 1", "/", false, ""⟩], some "t",
        false, none⟩ "t" ["a", "b", "c"]) "t"
      = some ("" ++ appendedLines ["a", "b", "c"]) :=
  feedAll_retains_all_lines
    ⟨[⟨"t", "Terminal 1", "/", false, ""⟩], some "t", false, none⟩
    "t" ["a", "b", "c"] "" rfl

/-- C4 counterexample: with `scrollback_limit = 2` and `k = 1`, feeding
3 lines to a session leaves a buffer holding all 3 lines — not the most
recent 2 as the claim states. -/
theorem scrollback_eviction_cex :
    outputOf (feedAll ⟨[⟨"t", "Terminal 1", "/", false, ""⟩], some "t",
        false, none⟩ "t" ["a", "b", "c"]) "t" = some "$ a\n$ b\n$ c\n" ∧
    outputOf (feedAll ⟨[⟨"t", "Terminal 1", "/", false, ""⟩], some "t",
        false, none⟩ "t" ["a", "b", "c"]) "t" ≠ some "$ b\n$ c\n" := by
  decide

/-! ## Provider loading: claim theorems -/

/-- C8 (amended): `loadProviders` performs NO validation: any fetched
configuration whose provider list contains two (or more) providers
marked `default` — at whatever positions — is accepted without error,
the provider list is stored as-is (every provider callable), and
`defaultProvider` is resolved to the first provider marked `default`
(`null` if its id is the falsy empty string). Nothing is rejected
before the providers become callable. -/
theorem loadProviders_accepts_duplicate_defaults (s : AppState)
    (fetched : List Provider)
    (hdup : 2 ≤ (fetched.filter (fun p => p.default)).length) :
    ((loadProviders s fetched).error = none) ∧
    ((loadProviders s fetched).providers = fetched) ∧
    (∃ r, fetched.find? (fun p => p.default) = some r ∧
      (loadProviders s fetched).defaultProvider
        = (if r.id = "" then none else some r.id)) := by
  refine ⟨rfl, rfl, ?_⟩
  have hne : fetched.filter (fun p => p.default) ≠ [] := by
    intro hnil
    rw [hnil] at hdup
    simp at hdup
  obtain ⟨r0, hr0⟩ := List.exists_mem_of_ne_nil _ hne
  have hr0' := List.mem_filter.mp hr0
  have hsome : (fetched.find? (fun p => p.default)).isSome := by
    rw [List.find?_isSome]
    exact ⟨r0, hr0'.1, hr0'.2⟩
  obtain ⟨r, hr⟩ := Option.isSome_iff_exists.mp hsome
  refine ⟨r, hr, ?_⟩
  simp [loadProviders, hr, jsIdOrNull]

/-- Witness for `loadProviders_accepts_duplicate_defaults`: a list whose
two `default`-marked providers sit AFTER a non-default head provider
loads without error, stores all three providers, and resolves the
default to the first `default`-marked one (`"p1"`). -/
theorem loadProviders_accepts_duplicate_defaults_witness :
    ((loadProviders ⟨[], none, false, none⟩
        [⟨"p0", "P0", "anthropic", none, none, none, false, true, []⟩,
         ⟨"p1", "P1", "openai", none, none, none, true, true, []⟩,
         ⟨"p2", "P2", "ollama", none, none, none, true, true, []⟩]).error = none) ∧
    ((loadProviders ⟨[], none, false, none⟩
        [⟨"p0", "P0", "anthropic", none, none, none, false, true, []⟩,
         ⟨"p1", "P1", "openai", none, none, none, true, true, []⟩,
         ⟨"p2", "P2", "ollama", none, none, none, true, true, []⟩]).providers
      = [⟨"p0", "P0", "anthropic", none, none, none, false, true, []⟩,
         ⟨"p1", "P1", "openai", none, none, none, true, true, []⟩,
         ⟨"p2", "P2", "ollama", none, none, none, true, true, []⟩]) ∧
    (∃ r, ([⟨"p0", "P0", "anthropic", none, none, none, false, true, []⟩,
            ⟨"p1", "P1", "openai", none, none, none, true, true, []⟩,
            ⟨"p2", "P2", "ollama", none, none, none, true, true,
              []⟩] : List Provider).find? (fun p => p.default) = some r ∧
      (loadProviders ⟨[], none, false, none⟩
        [⟨"p0", "P0", "anthropic", none, none, none, false, true, []⟩,
         ⟨"p1", "P1", "openai", none, none, none, true, true, []⟩,
         ⟨"p2", "P2", "ollama", none, none, none, true, true, []⟩]).defaultProvider
        = (if r.id = "" then none else some r.id)) :=
  loadProviders_accepts_duplicate_defaults ⟨[], none, false, none⟩
    [⟨"p0", "P0", "anthropic", none, none, none, false, true, []⟩,
     ⟨"p1", "P1", "openai", none, none, none, true, true, []⟩,
     ⟨"p2", "P2", "ollama", none, none, none, true, true, []⟩]
    (by decide)

/-- C8 counterexample: loading a list with two `default: true` providers
is NOT rejected — no error is recorded and the loaded provider set
changes from empty to the full two-element list, with both providers
callable. -/
theorem loadProviders_rejection_cex :
    ((loadProviders ⟨[], none, false, none⟩
        [⟨"p1", "P1", "openai", none, none, none, true, true, []⟩,
         ⟨"p2", "P2", "ollama", none, none, none, true, true, []⟩]).error = none) ∧
    ((loadProviders ⟨[], none, false, none⟩
        [⟨"p1", "P1", "openai", none, none, none, true, true, []⟩,
         ⟨"p2", "P2", "ollama", none, none, none, true, true, []⟩]).providers
      ≠ (⟨[], none, false, none⟩ : AppState).providers) := by
  decide

/-! ## Visibility: claim theorem -/

/-- C9: the `quick_hide` hotkey callback forces the surface hidden
regardless of the current visibility state; it is idempotent (applying
it twice equals applying it once) and a no-op when already hidden. -/
theorem quick_hide_forces_hidden_idempotent (v : Bool) :
    (handleHotkeyCallback v "quick_hide" = false) ∧
    (handleHotkeyCallback (handleHotkeyCallback v "quick_hide") "quick_hide"
      = handleHotkeyCallback v "quick_hide") ∧
    (handleHotkeyCallback false "quick_hide" = false) := by
  cases v <;> exact ⟨rfl, rfl, rfl⟩

end HoverShell
